import Mathlib

/-
  Verification of the real-time switch-monitoring WebSocket server
  (src/websocket_server.py, class SwitchMonitorWebSocket).

  Shallow embedding conventions:
  * Randomness (`random.choice`, `random.randint`, `random.random`,
    `random.sample`) is modelled by an explicit oracle `Rand`: an infinite
    stream of natural numbers together with a cursor.  Every random call
    consumes one draw.  All theorems quantify over the oracle, so they hold
    for every possible outcome of the random choices.
  * Wall-clock timestamps (`datetime.now().isoformat()`, the `last_seen`
    and `timestamp` fields) are omitted: no claim mentions them.
  * A client connection handle (a Python websocket object) is modelled by a
    `Nat` identity; the registry `self.clients` (a Python set) is a
    `Finset Nat`.  `set.add` is `insert`, `set.discard` is `Finset.erase`.
  * A `json.loads` result is modelled by `Option ClientData`: `none` models
    a frame on which `json.loads` raises `json.JSONDecodeError`; `some d`
    models a decoded object, whose `.get` accesses are the `Option` fields
    of `ClientData`.
  * Sending on a websocket is modelled by recording the outbound message;
    whether a send raises `ConnectionClosed` is an oracle `fails : Nat → Bool`
    over connection identities.
-/

namespace SwitchMonitor

/-- Oracle for the `random` module: an infinite stream of naturals and a
cursor; each random call consumes one draw. -/
structure Rand where
  seq : Nat → Nat
  idx : Nat

/-- Consume one draw from the oracle. -/
def Rand.next (r : Rand) : Nat × Rand :=
  (r.seq r.idx, ⟨r.seq, r.idx + 1⟩)

/-- Model of `random.randint(a, b)`: a uniform-range draw is abstracted as an
oracle value reduced into the inclusive range `[a, b]`. -/
def randint (a b : Nat) (r : Rand) : Nat × Rand :=
  (a + r.next.1 % (b + 1 - a), r.next.2)

/-- Model of `random.choice(l)`: pick the element at an oracle-chosen index.
`d` is a default for the (unreachable on the lists used) empty case. -/
def choice {α : Type} (l : List α) (d : α) (r : Rand) : α × Rand :=
  (l.getD (r.next.1 % l.length) d, r.next.2)

/-- Model of a comparison `random.random() > t` for a fixed threshold
`t ∈ (0,1)`: the Boolean outcome is decided by the oracle.  The distribution
is irrelevant here: every theorem quantifies over all oracles. -/
def randomGt (r : Rand) : Bool × Rand :=
  (decide (r.next.1 % 2 = 1), r.next.2)

/-- Model of `random.sample(pop, k)`: draw `k` pairwise-distinct elements of
`pop` by repeatedly removing an oracle-chosen position from the remaining
population (any distinct `k`-sequence is reachable, matching the set of
outputs `random.sample` can produce). -/
def sample (pop : List Nat) (k : Nat) (r : Rand) : List Nat × Rand :=
  match k with
  | 0 => ([], r)
  | k + 1 =>
    let i := r.next.1 % pop.length
    let rest := sample (pop.eraseIdx i) k r.next.2
    (pop.getD i 0 :: rest.1, rest.2)

/-- Port status strings used by `generate_port_data`. -/
inductive Status
  | up
  | down
  | error
  | unknown
  deriving DecidableEq

/-- The list `statuses = ['up', 'down', 'error', 'unknown']`. -/
def statuses : List Status := [.up, .down, .error, .unknown]

/-- The list `speeds = ['1 Gbps', '100 Mbps', '10 Gbps', 'Unknown']`. -/
def speeds : List String := ["1 Gbps", "100 Mbps", "10 Gbps", "Unknown"]

/-- The list `vlans = [1, 10, 20, 30, 100, None]`. -/
def vlans : List (Option Nat) := [some 1, some 10, some 20, some 30, some 100, none]

/-- The `errors` sub-dictionary of a generated port record. -/
structure Errors where
  crc_errors : Nat
  collisions : Nat
  late_collisions : Nat
  deriving DecidableEq

/-- The `traffic` sub-dictionary of a generated port record. -/
structure Traffic where
  bytes_in : Nat
  bytes_out : Nat
  packets_in : Nat
  packets_out : Nat
  deriving DecidableEq

/-- A simulated port record as built by `generate_port_data`.  `port_number`
is stored exactly as passed in (the caller may pass a decoded JSON value, so
it is an `Option Nat`); `mac_address` keeps the six random octets (the hex
formatting of `generate_mac_address` is presentation only); the `last_seen`
timestamp is omitted. -/
structure PortData where
  port_number : Option Nat
  status : Status
  mac_address : List Nat
  ip_address : Option String
  vlan : Option Nat
  speed : String
  duplex : String
  poe_status : String
  uptime : Nat
  errors : Errors
  traffic : Traffic
  deriving DecidableEq

/-- `generate_mac_address`: six draws of `random.randint(0, 255)`. -/
def generate_mac_address (r : Rand) : List Nat × Rand :=
  let d0 := randint 0 255 r
  let d1 := randint 0 255 d0.2
  let d2 := randint 0 255 d1.2
  let d3 := randint 0 255 d2.2
  let d4 := randint 0 255 d3.2
  let d5 := randint 0 255 d4.2
  ([d0.1, d1.1, d2.1, d3.1, d4.1, d5.1], d5.2)

/-- The base prefixes used by `generate_ip_address`. -/
def ip_ranges : List String := ["192.168.1.", "192.168.0.", "10.0.0.", "172.16.0."]

/-- `generate_ip_address`: a random base prefix plus `randint(1, 254)`. -/
def generate_ip_address (r : Rand) : String × Rand :=
  let base := choice ip_ranges "192.168.1." r
  let n := randint 1 254 base.2
  (base.1 ++ toString n.1, n.2)

/-- `generate_port_data(switch_ip, port_number)`: builds one simulated port
record, consuming random draws in the evaluation order of the Python dict
literal.  Note the `switch_ip` argument is unused by the source function. -/
def generate_port_data (switch_ip : Option String) (port_number : Option Nat)
    (r : Rand) : PortData × Rand :=
  let st := choice statuses .up r
  let mac := generate_mac_address st.2
  let ipGate := randomGt mac.2
  let ip : Option String × Rand :=
    if ipGate.1 then
      let g := generate_ip_address ipGate.2
      (some g.1, g.2)
    else (none, ipGate.2)
  let vl := choice vlans none ip.2
  let sp := choice speeds "1 Gbps" vl.2
  let poeGate := randomGt sp.2
  let upt := randint 100 86400 poeGate.2
  let crc := randint 0 10 upt.2
  let col := randint 0 5 crc.2
  let lcol := randint 0 2 col.2
  let bin := randint 1000000 100000000 lcol.2
  let bout := randint 1000000 100000000 bin.2
  let pin := randint 10000 1000000 bout.2
  let pout := randint 10000 1000000 pin.2
  ({ port_number := port_number
     status := st.1
     mac_address := mac.1
     ip_address := ip.1
     vlan := vl.1
     speed := sp.1
     duplex := "Full"
     poe_status := if poeGate.1 then "Enabled" else "Disabled"
     uptime := upt.1
     errors := ⟨crc.1, col.1, lcol.1⟩
     traffic := ⟨bin.1, bout.1, pin.1, pout.1⟩ }, pout.2)

/-- One entry of `self.switches`. -/
structure Switch where
  ip : String
  name : String
  ports : Nat
  deriving DecidableEq

/-- The configured switch list from `SwitchMonitorWebSocket.__init__`. -/
def switches : List Switch :=
  [⟨"192.168.1.1", "Main Switch", 24⟩,
   ⟨"192.168.1.10", "Office Switch", 24⟩,
   ⟨"192.168.1.20", "Server Switch", 24⟩]

/-- The server's mutable state: the client registry `self.clients` and the
switch configuration `self.switches`. -/
structure ServerState where
  clients : Finset Nat
  switches : List Switch
  deriving DecidableEq

/-- The state after `__init__`: no clients, the three configured switches. -/
def initState : ServerState := ⟨∅, switches⟩

/-- `register_client`: `self.clients.add(websocket)` (the initial-data send
that follows is modelled at the event level, see `exec`). -/
def register_client (s : ServerState) (c : Nat) : ServerState :=
  { s with clients := insert c s.clients }

/-- `unregister_client`: `self.clients.discard(websocket)` — a removal that
is a no-op when the connection is not registered. -/
def unregister_client (s : ServerState) (c : Nat) : ServerState :=
  { s with clients := s.clients.erase c }

/-- One per-switch entry of a `port_update` message. -/
structure SwitchUpdate where
  switch_ip : String
  switch_name : String
  ports : List PortData
  deriving DecidableEq

/-- Outbound wire messages, tagged as in the `'type'` field of the Python
dicts (`timestamp` fields omitted).  These four tags are the only message
kinds the server ever sends. -/
inductive Message
  | initial_data (sw : List Switch)
  | port_update (updates : List SwitchUpdate)
  | port_status (switch_ip : Option String) (port_number : Option Nat)
      (data : PortData)
  | switch_ports (switch_ip : Option String) (switch_name : String)
      (total_ports : Nat) (active_ports : Nat) (ports : List PortData)
  deriving DecidableEq

/-- The `'type'` string of an outbound message. -/
def Message.tag : Message → String
  | .initial_data _ => "initial_data"
  | .port_update _ => "port_update"
  | .port_status _ _ _ => "port_status"
  | .switch_ports _ _ _ _ _ => "switch_ports"

/-- A decoded inbound JSON object, restricted to the keys that
`handle_client_message` reads via `data.get(...)`; a missing key is `none`. -/
structure ClientData where
  type : Option String
  switch_ip : Option String
  port_number : Option Nat
  deriving DecidableEq

/-- The port-list builder shared by the `get_switch_ports` handler and the
broadcast loop: one `generate_port_data` call per port number, threading the
random oracle left to right (the order of the Python `for` loops). -/
def buildPorts (switch_ip : Option String) (nums : List Nat) (r : Rand) :
    List PortData × Rand :=
  match nums with
  | [] => ([], r)
  | n :: rest =>
    let pd := generate_port_data switch_ip (some n) r
    let tl := buildPorts switch_ip rest pd.2
    (pd.1 :: tl.1, tl.2)

/-- `handle_client_message`: dispatch on `data.get('type')` and return the
list of messages sent back to this client (empty when no branch replies —
in particular for a `get_switch_ports` naming no configured switch, and for
an unrecognized or missing type). -/
def handle_client_message (s : ServerState) (data : ClientData) (r : Rand) :
    List Message × Rand :=
  match data.type with
  | some t =>
    if t = "get_port_status" then
      let pd := generate_port_data data.switch_ip data.port_number r
      ([.port_status data.switch_ip data.port_number pd.1], pd.2)
    else if t = "get_switch_ports" then
      match s.switches.find? (fun sw => decide (data.switch_ip = some sw.ip)) with
      | some sw =>
        let ports := buildPorts data.switch_ip (List.range' 1 24) r
        ([.switch_ports data.switch_ip sw.name 24
            ((ports.1.filter (fun p => decide (p.status = Status.up))).length)
            ports.1], ports.2)
      | none => ([], r)
    else ([], r)
  | none => ([], r)

/-- Outcome of one iteration of the `async for` body in `handle_client`. -/
inductive StepResult
  | active (s : ServerState) (out : List Message) (r : Rand)
  | closed (s : ServerState) (r : Rand)

/-- One iteration of the session loop of `handle_client` on a received frame.
`frame = none` models a frame on which `json.loads` raises
`json.JSONDecodeError`: the `try` around the loop catches only
`websockets.exceptions.ConnectionClosed`, so the exception escapes, the
`finally` block runs `unregister_client`, and the handler terminates (the
websockets library then closes the connection).  `frame = some d` runs
`handle_client_message` and the session stays in its receive loop. -/
def session_step (s : ServerState) (c : Nat) (frame : Option ClientData)
    (r : Rand) : StepResult :=
  match frame with
  | none => .closed (unregister_client s c) r
  | some d =>
    let out := handle_client_message s d r
    .active s out.1 out.2

/-- The per-switch update list built by `broadcast_update`: for each switch,
`num = randint(1, 5)` then `sample(range(1, 25), num)` then one
`generate_port_data` per sampled port number. -/
def buildUpdates (sws : List Switch) (r : Rand) : List SwitchUpdate × Rand :=
  match sws with
  | [] => ([], r)
  | sw :: rest =>
    let num := randint 1 5 r
    let chosen := sample (List.range' 1 24) num.1 num.2
    let ports := buildPorts (some sw.ip) chosen.1 chosen.2
    let tl := buildUpdates rest ports.2
    ({ switch_ip := sw.ip, switch_name := sw.name, ports := ports.1 } :: tl.1, tl.2)

/-- `broadcast_update`: returns early when the registry is empty; otherwise
builds the `port_update` message once, attempts one send per registered
client (`fails c = true` models `ConnectionClosed` on that send; the failed
client is collected in `disconnected_clients` instead of delivered), and only
after the iteration completes removes the collected failures via
`unregister_client`.  Result: (new state, delivered (client, message) pairs,
remaining oracle). -/
def broadcast_update (s : ServerState) (fails : Nat → Bool) (r : Rand) :
    ServerState × List (Nat × Message) × Rand :=
  if s.clients = ∅ then (s, [], r)
  else
    let updates := buildUpdates s.switches r
    let message := Message.port_update updates.1
    let clientList := s.clients.sort (· ≤ ·)
    let sent := (clientList.filter (fun c => !fails c)).map (fun c => (c, message))
    let disconnected_clients := clientList.filter (fun c => fails c)
    let s1 := disconnected_clients.foldl unregister_client s
    (s1, sent, updates.2)

/-- Events of the server's interleaved execution, at the granularity at
which the asyncio event loop can interleave the coroutines (between awaits):
* `connect c ok` — `handle_client` begins: `register_client` adds `c` and
  `send_initial_data` runs; `ok = false` models `ConnectionClosed` on the
  initial send, whose handler calls `unregister_client` (no delivery).
  There is no suspension point between `clients.add` and the initial
  `websocket.send` call, so the pair is one event.
* `disconnect c` — the transport closed and `handle_client`'s loop raised
  `ConnectionClosed`; the `finally` block runs `unregister_client`.
* `frame c d` — the session loop of `c` received a frame whose `json.loads`
  result is `d` (see `session_step`).
* `tick fails` — one `broadcast_update` with send-failure oracle `fails`. -/
inductive Ev
  | connect (c : Nat) (ok : Bool)
  | disconnect (c : Nat)
  | frame (c : Nat) (d : Option ClientData)
  | tick (fails : Nat → Bool)

/-- Whole-system state: server state plus the random oracle. -/
structure Sys where
  state : ServerState
  rand : Rand

/-- One event's effect: next system state and the (client, message) pairs
delivered during the event. -/
def exec (sys : Sys) (e : Ev) : Sys × List (Nat × Message) :=
  match e with
  | .connect c ok =>
    let s1 := register_client sys.state c
    if ok then (⟨s1, sys.rand⟩, [(c, .initial_data s1.switches)])
    else (⟨unregister_client s1 c, sys.rand⟩, [])
  | .disconnect c => (⟨unregister_client sys.state c, sys.rand⟩, [])
  | .frame c d =>
    match session_step sys.state c d sys.rand with
    | .closed s1 r1 => (⟨s1, r1⟩, [])
    | .active s1 out r1 => (⟨s1, r1⟩, out.map (fun m => (c, m)))
  | .tick fails =>
    let res := broadcast_update sys.state fails sys.rand
    (⟨res.1, res.2.2⟩, res.2.1)

/-- Run a finite event sequence, accumulating all deliveries in order. -/
def run (sys : Sys) : List Ev → Sys × List (Nat × Message)
  | [] => (sys, [])
  | e :: rest =>
    let step := exec sys e
    let rec1 := run step.1 rest
    (rec1.1, step.2 ++ rec1.2)

/-- Transport-consistency of a trace: a frame can only arrive on a session
that is currently registered (a connection delivers inbound frames only
between its registration and its deregistration). -/
def WF (sys : Sys) : List Ev → Bool
  | [] => true
  | e :: rest =>
    (match e with
     | .frame c _ => decide (c ∈ sys.state.clients)
     | _ => true) && WF (exec sys e).1 rest

/-- The chronological message stream delivered to client `c`. -/
def streamOf (c : Nat) (outs : List (Nat × Message)) : List Message :=
  (outs.filter (fun p => decide (p.1 = c))).map Prod.snd

/-- Modelled from the spec's words (testable property, section 8): after an
event, «the set of connections that connected and have not yet
disconnected».  A connect adds the connection; a failed initial send, a
disconnect, a frame whose decode error ends the handler, and a failed
broadcast send are the disconnections the code detects, each removing it. -/
def connectedNotDisconnectedStep (A : Finset Nat) : Ev → Finset Nat
  | .connect c ok => if ok then insert c A else (insert c A).erase c
  | .disconnect c => A.erase c
  | .frame c d =>
    match d with
    | none => A.erase c
    | some _ => A
  | .tick fails => A.filter (fun c => !fails c)

/-- Modelled from the spec's words: the set of connections that have
connected and not yet disconnected over a whole event sequence. -/
def connectedNotDisconnected (A : Finset Nat) (evs : List Ev) : Finset Nat :=
  evs.foldl connectedNotDisconnectedStep A

theorem generate_port_data_port_number (ip : Option String) (pn : Option Nat)
    (r : Rand) : (generate_port_data ip pn r).1.port_number = pn := rfl

theorem buildPorts_length (nums : List Nat) (ip : Option String) (r : Rand) :
    (buildPorts ip nums r).1.length = nums.length := by
  induction nums generalizing r with
  | nil => rfl
  | cons n rest ih => simp [buildPorts, ih]

theorem buildPorts_map_port_number (nums : List Nat) (ip : Option String)
    (r : Rand) :
    (buildPorts ip nums r).1.map PortData.port_number = nums.map some := by
  induction nums generalizing r with
  | nil => rfl
  | cons n rest ih =>
    simp [buildPorts, ih, generate_port_data_port_number]

theorem randint_bounds (a b : Nat) (r : Rand) (h : a ≤ b) :
    a ≤ (randint a b r).1 ∧ (randint a b r).1 ≤ b := by
  have hm : r.next.1 % (b + 1 - a) < b + 1 - a :=
    Nat.mod_lt _ (by omega)
  unfold randint
  omega

theorem sample_length (k : Nat) (pop : List Nat) (r : Rand)
    (h : k ≤ pop.length) : (sample pop k r).1.length = k := by
  induction k generalizing pop r with
  | zero => rfl
  | succ k ih =>
    have hpos : 0 < pop.length := by omega
    have hi : r.next.1 % pop.length < pop.length := Nat.mod_lt _ hpos
    have hlen : (pop.eraseIdx (r.next.1 % pop.length)).length = pop.length - 1 := by
      rw [List.length_eraseIdx, if_pos hi]
    simp only [sample, List.length_cons]
    rw [ih _ _ (by omega)]

theorem sample_subset (k : Nat) (pop : List Nat) (r : Rand)
    (h : k ≤ pop.length) : ∀ x ∈ (sample pop k r).1, x ∈ pop := by
  induction k generalizing pop r with
  | zero => intro x hx; cases hx
  | succ k ih =>
    intro x hx
    have hpos : 0 < pop.length := by omega
    have hi : r.next.1 % pop.length < pop.length := Nat.mod_lt _ hpos
    have hlen : (pop.eraseIdx (r.next.1 % pop.length)).length = pop.length - 1 := by
      rw [List.length_eraseIdx, if_pos hi]
    simp only [sample, List.mem_cons] at hx
    rcases hx with hx | hx
    · rw [hx, List.getD_eq_getElem pop 0 hi]
      exact List.getElem_mem hi
    · exact (List.eraseIdx_sublist pop (r.next.1 % pop.length)).subset
        (ih _ _ (by omega) x hx)

theorem sample_nodup (k : Nat) (pop : List Nat) (r : Rand)
    (h : k ≤ pop.length) (hnd : pop.Nodup) : (sample pop k r).1.Nodup := by
  induction k generalizing pop r with
  | zero => exact List.nodup_nil
  | succ k ih =>
    have hpos : 0 < pop.length := by omega
    have hi : r.next.1 % pop.length < pop.length := Nat.mod_lt _ hpos
    have hlen : (pop.eraseIdx (r.next.1 % pop.length)).length = pop.length - 1 := by
      rw [List.length_eraseIdx, if_pos hi]
    have hnd' : (pop.eraseIdx (r.next.1 % pop.length)).Nodup :=
      (List.eraseIdx_sublist pop (r.next.1 % pop.length)).nodup hnd
    have hrest : (sample (pop.eraseIdx (r.next.1 % pop.length)) k r.next.2).1.Nodup :=
      ih _ _ (by omega) hnd'
    simp only [sample, List.nodup_cons]
    refine ⟨fun hmem => ?_, hrest⟩
    have hx : pop.getD (r.next.1 % pop.length) 0 ∈
        pop.eraseIdx (r.next.1 % pop.length) :=
      sample_subset k _ _ (by omega) _ hmem
    rw [List.getD_eq_getElem pop 0 hi] at hx
    rw [List.mem_eraseIdx_iff_getElem] at hx
    obtain ⟨j, hj, hji, hgj⟩ := hx
    exact hji (hnd.getElem_inj_iff.mp hgj)

theorem foldl_unregister_clients (l : List Nat) (s : ServerState) :
    (l.foldl unregister_client s).clients = s.clients \ l.toFinset := by
  induction l generalizing s with
  | nil => simp
  | cons a l ih =>
    simp only [List.foldl_cons, ih, List.toFinset_cons]
    ext x
    simp only [unregister_client, Finset.mem_sdiff, Finset.mem_erase,
      Finset.mem_insert]
    tauto

theorem foldl_unregister_switches (l : List Nat) (s : ServerState) :
    (l.foldl unregister_client s).switches = s.switches := by
  induction l generalizing s with
  | nil => rfl
  | cons a l ih => simp only [List.foldl_cons, ih]; rfl

theorem broadcast_update_clients (s : ServerState) (fails : Nat → Bool)
    (r : Rand) :
    (broadcast_update s fails r).1.clients = s.clients.filter (fun c => !fails c) := by
  by_cases h : s.clients = ∅
  · simp [broadcast_update, h]
  · simp only [broadcast_update, if_neg h, foldl_unregister_clients]
    ext x
    simp only [Finset.mem_sdiff, List.mem_toFinset, List.mem_filter,
      Finset.mem_sort, Finset.mem_filter, Bool.not_eq_true']
    cases hf : fails x <;> simp [hf]

theorem broadcast_update_switches (s : ServerState) (fails : Nat → Bool)
    (r : Rand) : (broadcast_update s fails r).1.switches = s.switches := by
  by_cases h : s.clients = ∅
  · simp [broadcast_update, h]
  · simp only [broadcast_update, if_neg h, foldl_unregister_switches]

/-- C9: removing a connection that is not registered is a no-op on the whole
server state, and removal is idempotent: removing twice equals removing
once (`self.clients.discard(websocket)` semantics). -/
theorem c9_unregister_noop_idempotent (s : ServerState) (c : Nat) :
    (c ∉ s.clients → unregister_client s c = s) ∧
    unregister_client (unregister_client s c) c = unregister_client s c := by
  constructor
  · intro hc
    unfold unregister_client
    rw [Finset.erase_eq_self.mpr hc]
  · unfold unregister_client
    simp only [Finset.erase_idem]

/-- Witness for C9 at a concrete input: connection 5 is not registered in the
initial state, so removing it changes nothing, and a second removal equals
the first. -/
theorem c9_witness :
    unregister_client initState 5 = initState ∧
    unregister_client (unregister_client initState 5) 5 =
      unregister_client initState 5 :=
  ⟨(c9_unregister_noop_idempotent initState 5).1 (by decide),
   (c9_unregister_noop_idempotent initState 5).2⟩

/-- C10: with an empty registry, a broadcast tick returns immediately: no
message is delivered, the server state (clients and switch configuration) is
unchanged, and no update payload is built (the random oracle is untouched). -/
theorem c10_broadcast_empty_noop (s : ServerState) (fails : Nat → Bool)
    (r : Rand) (h : s.clients = ∅) :
    broadcast_update s fails r = (s, [], r) := by
  unfold broadcast_update
  rw [if_pos h]

/-- Witness for C10: the initial state has an empty registry and a tick on it
is a complete no-op. -/
theorem c10_witness :
    broadcast_update initState (fun _ => false) ⟨fun _ => 0, 0⟩ =
      (initState, [], ⟨fun _ => 0, 0⟩) :=
  c10_broadcast_empty_noop initState (fun _ => false) ⟨fun _ => 0, 0⟩ rfl

/-- C1 (code divergence witnessed): on a malformed frame (`json.loads`
raises, modelled by `frame = none`) the session-loop step TERMINATES the
session: the handler's `try` catches only `ConnectionClosed`, so the decode
exception escapes, the `finally` block unregisters the client, and the
connection is closed — the session does not remain active.  The removal
touches exactly this client's registry entry. -/
theorem c1_malformed_frame_closes_session (s : ServerState) (c : Nat)
    (r : Rand) :
    session_step s c none r = .closed (unregister_client s c) r ∧
    (unregister_client s c).clients = s.clients.erase c ∧
    c ∉ (unregister_client s c).clients := by
  refine ⟨rfl, rfl, ?_⟩
  exact Finset.not_mem_erase c s.clients

/-- C2 as amended: a `get_port_status` request — whether or not its
`switch_ip` names a configured switch — leaves the session active, leaves
the server state unchanged, and is answered by exactly one ordinary
`port_status`-tagged response echoing the request's fields.  The code never
consults the switch configuration on this path. -/
theorem c2_get_port_status_always_replies (s : ServerState) (c : Nat)
    (ip : Option String) (pn : Option Nat) (r : Rand) :
    session_step s c (some ⟨some "get_port_status", ip, pn⟩) r =
      .active s [Message.port_status ip pn (generate_port_data ip pn r).1]
        (generate_port_data ip pn r).2 := rfl

/-- C2 counterexample to the claim as stated: for the unknown entity id
"10.9.9.9" (not a configured switch ip) the reply is tagged "port_status" —
the very same tag used for a known entity — so it is not an error-tagged
response; the wire protocol has no error tag at all. -/
theorem c2_counterexample :
    ("10.9.9.9" ∉ switches.map Switch.ip) ∧
    ((handle_client_message initState ⟨some "get_port_status", some "10.9.9.9", some 7⟩
        ⟨fun _ => 0, 0⟩).1.map Message.tag = ["port_status"]) ∧
    ((handle_client_message initState ⟨some "get_port_status", some "192.168.1.1", some 7⟩
        ⟨fun _ => 0, 0⟩).1.map Message.tag = ["port_status"]) := by
  refine ⟨by decide, rfl, rfl⟩

theorem exec_clients (sys : Sys) (e : Ev) :
    (exec sys e).1.state.clients =
      connectedNotDisconnectedStep sys.state.clients e := by
  cases e with
  | connect c ok => cases ok <;> rfl
  | disconnect c => rfl
  | frame c d => cases d <;> rfl
  | tick fails =>
    simp only [exec, connectedNotDisconnectedStep]
    exact broadcast_update_clients sys.state fails sys.rand

/-- C3: for every starting system and every finite sequence of connect,
disconnect, inbound-frame and broadcast-tick events, the registry contents
after running the sequence are exactly the connections that connected and
have not yet disconnected — no leaked entries, no phantom entries. -/
theorem c3_registry_membership_exact (sys : Sys) (evs : List Ev) :
    (run sys evs).1.state.clients =
      connectedNotDisconnected sys.state.clients evs := by
  induction evs generalizing sys with
  | nil => rfl
  | cons e rest ih =>
    show (run (exec sys e).1 rest).1.state.clients =
      connectedNotDisconnected sys.state.clients (e :: rest)
    rw [ih (exec sys e).1, exec_clients]
    rfl

/-- C4: deregistration happens exactly once per connection no matter which
code path detects the disconnect: if a broadcast tick has already removed a
failed connection, the session handler's own `finally`-path removal
(`disconnect c`) is a complete no-op — the whole remaining run, states and
delivered messages alike, is identical with or without it. -/
theorem c4_no_double_removal (sys : Sys) (evs1 evs2 : List Ev)
    (fails : Nat → Bool) (c : Nat) (h : fails c = true) :
    run sys (evs1 ++ Ev.tick fails :: Ev.disconnect c :: evs2) =
      run sys (evs1 ++ Ev.tick fails :: evs2) := by
  induction evs1 generalizing sys with
  | nil =>
    have hcl : c ∉ (exec sys (Ev.tick fails)).1.state.clients := by
      rw [exec_clients]
      simp [connectedNotDisconnectedStep, Finset.mem_filter, h]
    have hdd : exec (exec sys (Ev.tick fails)).1 (Ev.disconnect c) =
        ((exec sys (Ev.tick fails)).1, []) := by
      show ((⟨unregister_client (exec sys (Ev.tick fails)).1.state c,
              (exec sys (Ev.tick fails)).1.rand⟩ : Sys),
            ([] : List (Nat × Message))) = _
      have hu : unregister_client (exec sys (Ev.tick fails)).1.state c =
          (exec sys (Ev.tick fails)).1.state := by
        unfold unregister_client
        rw [Finset.erase_eq_self.mpr hcl]
      rw [hu]
    simp only [List.nil_append, run, hdd, List.nil_append]
  | cons e es ih =>
    simp only [List.cons_append, run, List.append_eq]
    rw [ih]

/-- Witness for C4 at concrete inputs: one client connects, a tick on which
its send fails removes it; an additional handler-side disconnect right after
changes nothing about the rest of the run. -/
theorem c4_witness :
    run ⟨initState, ⟨fun _ => 0, 0⟩⟩
        ([Ev.connect 0 true] ++ Ev.tick (fun _ => true) :: Ev.disconnect 0 :: []) =
      run ⟨initState, ⟨fun _ => 0, 0⟩⟩
        ([Ev.connect 0 true] ++ Ev.tick (fun _ => true) :: []) :=
  c4_no_double_removal ⟨initState, ⟨fun _ => 0, 0⟩⟩ [Ev.connect 0 true] []
    (fun _ => true) 0 rfl

/-- C5: within one broadcast tick, every registered client whose send does
not fail receives the one `port_update` message of that tick (failures of
other clients cannot block it); every delivered pair goes to a registered
non-failing client with exactly that message; no client is attempted twice
(no retry within the tick); and the failed clients — and only they — are
removed, after the iteration, from the registry. -/
theorem c5_broadcast_send_isolation (s : ServerState) (fails : Nat → Bool)
    (r : Rand) (c : Nat) (hc : c ∈ s.clients) (hok : fails c = false) :
    ((c, Message.port_update (buildUpdates s.switches r).1) ∈
        (broadcast_update s fails r).2.1) ∧
    (((broadcast_update s fails r).2.1.map Prod.fst).Nodup) ∧
    ((broadcast_update s fails r).2.1.all (fun p =>
        decide (p.2 = Message.port_update (buildUpdates s.switches r).1) &&
        decide (p.1 ∈ s.clients) && !fails p.1) = true) ∧
    ((broadcast_update s fails r).1.clients =
      s.clients.filter (fun x => !fails x)) := by
  have hne : s.clients ≠ ∅ := Finset.ne_empty_of_mem hc
  refine ⟨?_, ?_, ?_, broadcast_update_clients s fails r⟩
  · simp only [broadcast_update, if_neg hne]
    exact List.mem_map.mpr ⟨c,
      List.mem_filter.mpr ⟨(Finset.mem_sort _).mpr hc, by simp [hok]⟩, rfl⟩
  · simp only [broadcast_update, if_neg hne, List.map_map]
    have hfst : (Prod.fst ∘ fun x : Nat =>
        (x, Message.port_update (buildUpdates s.switches r).1)) = id := rfl
    rw [hfst, List.map_id]
    exact List.Nodup.filter _ (Finset.sort_nodup _ _)
  · simp only [broadcast_update, if_neg hne, List.all_eq_true]
    intro p hp
    obtain ⟨x, hxf, rfl⟩ := List.mem_map.mp hp
    obtain ⟨hxs, hxb⟩ := List.mem_filter.mp hxf
    have hxc : x ∈ s.clients := (Finset.mem_sort _).mp hxs
    simp [hxc, hxb]

/-- Witness for C5 at concrete inputs: registry {0, 1}, the send to client 1
fails, the send to client 0 succeeds; client 0 still gets the tick's
`port_update`, no client is attempted twice, and exactly client 1 is removed. -/
theorem c5_witness :
    ((0, Message.port_update
        (buildUpdates (⟨{0, 1}, switches⟩ : ServerState).switches ⟨fun _ => 0, 0⟩).1) ∈
      (broadcast_update ⟨{0, 1}, switches⟩ (fun c => decide (c = 1)) ⟨fun _ => 0, 0⟩).2.1) ∧
    (((broadcast_update ⟨{0, 1}, switches⟩ (fun c => decide (c = 1))
        ⟨fun _ => 0, 0⟩).2.1.map Prod.fst).Nodup) ∧
    ((broadcast_update ⟨{0, 1}, switches⟩ (fun c => decide (c = 1))
        ⟨fun _ => 0, 0⟩).2.1.all (fun p =>
        decide (p.2 = Message.port_update
          (buildUpdates (⟨{0, 1}, switches⟩ : ServerState).switches ⟨fun _ => 0, 0⟩).1) &&
        decide (p.1 ∈ (⟨{0, 1}, switches⟩ : ServerState).clients) && !(decide (p.1 = 1))) = true) ∧
    ((broadcast_update ⟨{0, 1}, switches⟩ (fun c => decide (c = 1))
        ⟨fun _ => 0, 0⟩).1.clients =
      (⟨{0, 1}, switches⟩ : ServerState).clients.filter (fun x => !(decide (x = 1)))) :=
  c5_broadcast_send_isolation ⟨{0, 1}, switches⟩ (fun c => decide (c = 1))
    ⟨fun _ => 0, 0⟩ 0 (by decide) (by decide)

theorem streamOf_append (c : Nat) (a b : List (Nat × Message)) :
    streamOf c (a ++ b) = streamOf c a ++ streamOf c b := by
  simp [streamOf, List.filter_append]

theorem streamOf_eq_nil (c : Nat) (outs : List (Nat × Message))
    (h : ∀ p ∈ outs, p.1 ≠ c) : streamOf c outs = [] := by
  unfold streamOf
  rw [List.filter_eq_nil_iff.mpr]
  · rfl
  · intro p hp
    simp [h p hp]

theorem broadcast_update_sent_mem (s : ServerState) (fails : Nat → Bool)
    (r : Rand) : ∀ p ∈ (broadcast_update s fails r).2.1,
    p.1 ∈ s.clients ∧ fails p.1 = false := by
  by_cases h : s.clients = ∅
  · simp [broadcast_update, h]
  · intro p hp
    simp only [broadcast_update, if_neg h] at hp
    obtain ⟨x, hxf, rfl⟩ := List.mem_map.mp hp
    obtain ⟨hxs, hxb⟩ := List.mem_filter.mp hxf
    refine ⟨(Finset.mem_sort _).mp hxs, ?_⟩
    simpa using hxb

theorem exec_switches (sys : Sys) (e : Ev) :
    (exec sys e).1.state.switches = sys.state.switches := by
  cases e with
  | connect c ok => cases ok <;> rfl
  | disconnect c => rfl
  | frame c d => cases d <;> rfl
  | tick fails =>
    simp only [exec]
    exact broadcast_update_switches sys.state fails sys.rand

theorem stream_first_aux (evs : List Ev) (sys : Sys) (c : Nat)
    (hsw : sys.state.switches = switches)
    (hwf : WF sys evs = true)
    (hc : c ∉ sys.state.clients) :
    streamOf c (run sys evs).2 = [] ∨
    ∃ tl, streamOf c (run sys evs).2 = Message.initial_data switches :: tl := by
  induction evs generalizing sys with
  | nil => left; rfl
  | cons e rest ih =>
    have hrun : (run sys (e :: rest)).2 =
        (exec sys e).2 ++ (run (exec sys e).1 rest).2 := rfl
    rw [hrun, streamOf_append]
    have hsw' : (exec sys e).1.state.switches = switches := by
      rw [exec_switches, hsw]
    cases e with
    | connect c' ok =>
      simp only [WF, Bool.and_eq_true, Bool.true_and] at hwf
      have hwf' : WF (exec sys (Ev.connect c' ok)).1 rest = true := hwf
      by_cases hcc : c' = c
      · subst hcc
        cases ok with
        | true =>
          right
          refine ⟨streamOf c' (run (exec sys (Ev.connect c' true)).1 rest).2, ?_⟩
          have h1 : streamOf c' (exec sys (Ev.connect c' true)).2 =
              [Message.initial_data switches] := by
            show streamOf c' [(c', Message.initial_data (register_client sys.state c').switches)] = _
            simp [streamOf, register_client, hsw]
          rw [h1, List.singleton_append]
        | false =>
          have hc' : c' ∉ (exec sys (Ev.connect c' false)).1.state.clients := by
            rw [exec_clients]
            exact Finset.not_mem_erase c' _
          have h1 : streamOf c' (exec sys (Ev.connect c' false)).2 = [] := rfl
          rw [h1, List.nil_append]
          exact ih _ hsw' hwf' hc'
      · have hcm : c ∉ (exec sys (Ev.connect c' ok)).1.state.clients := by
          rw [exec_clients]
          cases ok with
          | true =>
            show c ∉ insert c' sys.state.clients
            intro hmem
            rcases Finset.mem_insert.mp hmem with h | h
            · exact hcc h.symm
            · exact hc h
          | false =>
            show c ∉ (insert c' sys.state.clients).erase c'
            intro hmem
            rcases Finset.mem_insert.mp (Finset.mem_of_mem_erase hmem) with h | h
            · exact hcc h.symm
            · exact hc h
        have h1 : streamOf c (exec sys (Ev.connect c' ok)).2 = [] := by
          cases ok with
          | true =>
            refine streamOf_eq_nil c _ ?_
            intro p hp
            rcases List.mem_singleton.mp hp with rfl
            exact hcc
          | false => rfl
        rw [h1, List.nil_append]
        exact ih _ hsw' hwf' hcm
    | disconnect c' =>
      simp only [WF, Bool.and_eq_true, Bool.true_and] at hwf
      have hwf' : WF (exec sys (Ev.disconnect c')).1 rest = true := hwf
      have hcm : c ∉ (exec sys (Ev.disconnect c')).1.state.clients := by
        rw [exec_clients]
        intro hmem
        exact hc (Finset.mem_of_mem_erase hmem)
      have h1 : streamOf c (exec sys (Ev.disconnect c')).2 = [] := rfl
      rw [h1, List.nil_append]
      exact ih _ hsw' hwf' hcm
    | frame c' d =>
      simp only [WF, Bool.and_eq_true, decide_eq_true_eq] at hwf
      have hwf' : WF (exec sys (Ev.frame c' d)).1 rest = true := hwf.2
      have hg : c' ∈ sys.state.clients := hwf.1
      have hne : c' ≠ c := fun h => hc (h ▸ hg)
      cases d with
      | none =>
        have hcm : c ∉ (exec sys (Ev.frame c' none)).1.state.clients := by
          rw [exec_clients]
          intro hmem
          exact hc (Finset.mem_of_mem_erase hmem)
        have h1 : streamOf c (exec sys (Ev.frame c' none)).2 = [] := rfl
        rw [h1, List.nil_append]
        exact ih _ hsw' hwf' hcm
      | some dd =>
        have hcm : c ∉ (exec sys (Ev.frame c' (some dd))).1.state.clients := by
          rw [exec_clients]
          exact hc
        have h1 : streamOf c (exec sys (Ev.frame c' (some dd))).2 = [] := by
          refine streamOf_eq_nil c _ ?_
          intro p hp
          have hp' : p ∈ (handle_client_message sys.state dd sys.rand).1.map
              (fun m => (c', m)) := hp
          obtain ⟨m, _, rfl⟩ := List.mem_map.mp hp'
          exact hne
        rw [h1, List.nil_append]
        exact ih _ hsw' hwf' hcm
    | tick fails =>
      simp only [WF, Bool.and_eq_true, Bool.true_and] at hwf
      have hwf' : WF (exec sys (Ev.tick fails)).1 rest = true := hwf
      have hcm : c ∉ (exec sys (Ev.tick fails)).1.state.clients := by
        rw [exec_clients]
        simp only [connectedNotDisconnectedStep, Finset.mem_filter]
        intro hmem
        exact hc hmem.1
      have h1 : streamOf c (exec sys (Ev.tick fails)).2 = [] := by
        refine streamOf_eq_nil c _ ?_
        intro p hp
        have hp' : p ∈ (broadcast_update sys.state fails sys.rand).2.1 := hp
        intro hpc
        exact hc (hpc ▸ (broadcast_update_sent_mem sys.state fails sys.rand p hp').1)
      rw [h1, List.nil_append]
      exact ih _ hsw' hwf' hcm

/-- C6: starting from the initial server state, for every
transport-consistent event sequence and every client, the client's delivered
message stream is either empty or begins with its `initial_data` message —
in particular no `port_update` (and no request response) generated after the
client registered is ever delivered before its own `initial_data`. -/
theorem c6_first_message_is_initial_data (evs : List Ev) (r : Rand) (c : Nat)
    (hwf : WF ⟨initState, r⟩ evs = true) :
    streamOf c (run ⟨initState, r⟩ evs).2 = [] ∨
    ∃ tl, streamOf c (run ⟨initState, r⟩ evs).2 =
      Message.initial_data switches :: tl :=
  stream_first_aux evs ⟨initState, r⟩ c rfl hwf (Finset.not_mem_empty c)

/-- Witness for C6 on a concrete trace: client 0 connects, sends a request,
a broadcast tick runs, then the client disconnects; its stream starts with
`initial_data`. -/
theorem c6_witness :
    streamOf 0 (run ⟨initState, ⟨fun _ => 0, 0⟩⟩
        [Ev.connect 0 true,
         Ev.frame 0 (some ⟨some "get_port_status", some "192.168.1.1", some 3⟩),
         Ev.tick (fun _ => false), Ev.disconnect 0]).2 = [] ∨
    ∃ tl, streamOf 0 (run ⟨initState, ⟨fun _ => 0, 0⟩⟩
        [Ev.connect 0 true,
         Ev.frame 0 (some ⟨some "get_port_status", some "192.168.1.1", some 3⟩),
         Ev.tick (fun _ => false), Ev.disconnect 0]).2 =
      Message.initial_data switches :: tl :=
  c6_first_message_is_initial_data
    [Ev.connect 0 true,
     Ev.frame 0 (some ⟨some "get_port_status", some "192.168.1.1", some 3⟩),
     Ev.tick (fun _ => false), Ev.disconnect 0]
    ⟨fun _ => 0, 0⟩ 0 (by decide)

/-- C7: a `get_switch_ports` request naming any configured entity is
answered, for every outcome of the random choices, by a single
`switch_ports` response for that entity (its ip echoed, its configured
name) whose `total_ports` field is 24, whose `ports` list has exactly 24
entries carrying port numbers 1 through 24 in order, and whose
`active_ports` field is the number of entries of that list whose status
is `up`. -/
theorem c7_get_switch_ports_full_list (sw : Switch) (hsw : sw ∈ switches)
    (pn : Option Nat) (r : Rand) :
    ((handle_client_message initState
        ⟨some "get_switch_ports", some sw.ip, pn⟩ r).1 =
      [Message.switch_ports (some sw.ip) sw.name 24
        (((buildPorts (some sw.ip) (List.range' 1 24) r).1.filter
            (fun p => decide (p.status = Status.up))).length)
        (buildPorts (some sw.ip) (List.range' 1 24) r).1]) ∧
    (buildPorts (some sw.ip) (List.range' 1 24) r).1.length = 24 ∧
    (buildPorts (some sw.ip) (List.range' 1 24) r).1.map
        PortData.port_number = (List.range' 1 24).map some := by
  refine ⟨?_, ?_, buildPorts_map_port_number _ _ _⟩
  · have hcases : sw = (⟨"192.168.1.1", "Main Switch", 24⟩ : Switch) ∨
        sw = (⟨"192.168.1.10", "Office Switch", 24⟩ : Switch) ∨
        sw = (⟨"192.168.1.20", "Server Switch", 24⟩ : Switch) := by
      simpa [switches] using hsw
    rcases hcases with rfl | rfl | rfl <;> rfl
  · rw [buildPorts_length]
    simp

/-- Witness for C7 at a concrete configured entity other than the first:
the "Office Switch" at "192.168.1.10", with a concrete oracle. -/
theorem c7_witness :
    ((handle_client_message initState
        ⟨some "get_switch_ports", some "192.168.1.10", some 3⟩ ⟨fun _ => 0, 0⟩).1 =
      [Message.switch_ports (some "192.168.1.10") "Office Switch" 24
        (((buildPorts (some "192.168.1.10") (List.range' 1 24) ⟨fun _ => 0, 0⟩).1.filter
            (fun p => decide (p.status = Status.up))).length)
        (buildPorts (some "192.168.1.10") (List.range' 1 24) ⟨fun _ => 0, 0⟩).1]) ∧
    (buildPorts (some "192.168.1.10") (List.range' 1 24) ⟨fun _ => 0, 0⟩).1.length = 24 ∧
    (buildPorts (some "192.168.1.10") (List.range' 1 24) ⟨fun _ => 0, 0⟩).1.map
        PortData.port_number = (List.range' 1 24).map some :=
  c7_get_switch_ports_full_list ⟨"192.168.1.10", "Office Switch", 24⟩ (by decide)
    (some 3) ⟨fun _ => 0, 0⟩

theorem buildUpdates_map_ip (sws : List Switch) (r : Rand) :
    (buildUpdates sws r).1.map SwitchUpdate.switch_ip = sws.map Switch.ip := by
  induction sws generalizing r with
  | nil => rfl
  | cons sw rest ih => simp [buildUpdates, ih]

theorem buildUpdates_ports_props (sws : List Switch) (r : Rand) :
    ∀ su ∈ (buildUpdates sws r).1,
      1 ≤ su.ports.length ∧ su.ports.length ≤ 5 ∧
      (su.ports.map PortData.port_number).Nodup ∧
      ∀ p ∈ su.ports, ∃ k, p.port_number = some k ∧ 1 ≤ k ∧ k ≤ 24 := by
  induction sws generalizing r with
  | nil => intro su h; cases h
  | cons sw rest ih =>
    intro su hsu
    simp only [buildUpdates, List.mem_cons] at hsu
    rcases hsu with rfl | hsu
    · have hnum := randint_bounds 1 5 r (by omega)
      have hlr : (List.range' 1 24).length = 24 := by simp
      have hle : (randint 1 5 r).1 ≤ (List.range' 1 24).length := by omega
      have hlen := sample_length (randint 1 5 r).1 (List.range' 1 24)
        (randint 1 5 r).2 hle
      have hsub := sample_subset (randint 1 5 r).1 (List.range' 1 24)
        (randint 1 5 r).2 hle
      have hnd := sample_nodup (randint 1 5 r).1 (List.range' 1 24)
        (randint 1 5 r).2 hle (List.nodup_range' 1 24)
      have hports_len : (buildPorts (some sw.ip)
          (sample (List.range' 1 24) (randint 1 5 r).1 (randint 1 5 r).2).1
          (sample (List.range' 1 24) (randint 1 5 r).1 (randint 1 5 r).2).2).1.length =
          (randint 1 5 r).1 := by
        rw [buildPorts_length, hlen]
      have hports_map := buildPorts_map_port_number
        (sample (List.range' 1 24) (randint 1 5 r).1 (randint 1 5 r).2).1
        (some sw.ip)
        (sample (List.range' 1 24) (randint 1 5 r).1 (randint 1 5 r).2).2
      refine ⟨by rw [hports_len]; omega, by rw [hports_len]; omega, ?_, ?_⟩
      · rw [hports_map]
        exact hnd.map (Option.some_injective Nat)
      · intro p hp
        have hpn : p.port_number ∈
            (sample (List.range' 1 24) (randint 1 5 r).1 (randint 1 5 r).2).1.map
              some := by
          rw [← hports_map]
          exact List.mem_map_of_mem PortData.port_number hp
        obtain ⟨k, hk, hkp⟩ := List.mem_map.mp hpn
        have hkr := List.mem_range'_1.mp (hsub k hk)
        exact ⟨k, hkp.symm, hkr.1, by omega⟩
    · exact ih _ su hsu

/-- C8: for every broadcast tick and every outcome of the random choices,
the tick's update payload has exactly one record per configured switch (in
configuration order), and each record's `ports` list holds between 1 and 5
entries with pairwise-distinct port numbers, each in the range 1..24 — a
bounded proper subset of the 24-port state, never the full state. -/
theorem c8_updates_bounded_subset (r : Rand) :
    (buildUpdates switches r).1.map SwitchUpdate.switch_ip =
      ["192.168.1.1", "192.168.1.10", "192.168.1.20"] ∧
    (buildUpdates switches r).1.length = 3 ∧
    ((buildUpdates switches r).1.all (fun su =>
      decide (1 ≤ su.ports.length) && decide (su.ports.length ≤ 5) &&
      decide ((su.ports.map PortData.port_number).Nodup) &&
      su.ports.all (fun p =>
        match p.port_number with
        | some k => decide (1 ≤ k) && decide (k ≤ 24)
        | none => false)) = true) := by
  refine ⟨by rw [buildUpdates_map_ip]; rfl, ?_, ?_⟩
  · have h := congrArg List.length (buildUpdates_map_ip switches r)
    simpa using h
  · rw [List.all_eq_true]
    intro su hsu
    obtain ⟨h1, h2, h3, h4⟩ := buildUpdates_ports_props switches r su hsu
    simp only [Bool.and_eq_true, decide_eq_true_eq]
    refine ⟨⟨⟨h1, h2⟩, h3⟩, ?_⟩
    rw [List.all_eq_true]
    intro p hp
    obtain ⟨k, hk, hk1, hk24⟩ := h4 p hp
    rw [hk]
    simp [hk1, hk24]

end SwitchMonitor
